import Mathlib

/-!
# Formal model of the moneyTales quiz pipeline

A shallow embedding of the core components of the moneyTales repository:

* `DifficultyAgent` (backend/agents/difficulty_agent.py)
* `EvaluatorAgent` (backend/agents/evaluator_agent.py)
* `GamificationAgent` (backend/agents/gamification_agent.py)
* `Database` (backend/db/database.py, backend/db/models.py)
* `Orchestrator.evaluate_quiz` (backend/orchestrator.py)
* `ChunkingService.chunk_text` (backend/services/chunker.py)
* `VectorStore` (backend/services/vectorstore.py)

Python floats are modelled as exact rationals `ℚ`, Python ints as `ℤ`/`ℕ`,
Python exceptions as `Except String`.  Each definition carries a comment
pointing at the source lines it embeds.
-/

set_option linter.unusedVariables false

/-- Python `int(x)` applied to a number: truncation toward zero
(`int(66.67) = 66`, `int(-1.5) = -1`). -/
def pyInt (x : ℚ) : ℤ :=
  if 0 ≤ x then ⌊x⌋ else ⌈x⌉

/-- Python list indexing `l[i]` for `i : int`: a negative index counts from
the end; an index out of `[-len, len)` raises `IndexError`. -/
def pyGetStr (l : List String) (i : ℤ) : Except String String :=
  let j : ℤ := if i < 0 then i + l.length else i
  if 0 ≤ j ∧ j < l.length then
    .ok (l.getD j.toNat "")
  else
    .error "IndexError: list index out of range"

/-- Python string slicing `text[a:b]` with the usual clamping of negative
and overlarge bounds. -/
def pySlice (text : String) (a b : ℤ) : String :=
  let n : ℤ := text.length
  let a' : ℤ := if a < 0 then max 0 (n + a) else min a n
  let b' : ℤ := if b < 0 then max 0 (n + b) else min b n
  ((text.toList.drop a'.toNat).take (b' - a').toNat).asString

/-- Python `text.count(pattern)`: the number of non-overlapping occurrences
of `pattern` in `text`, scanning from the left.  (For an empty pattern
Python returns `len(text) + 1`.) -/
def pyCount (pattern text : List Char) : ℕ :=
  if h : pattern = [] then text.length + 1
  else
    match text with
    | [] => 0
    | c :: rest =>
      if hp : pattern.isPrefixOf (c :: rest) then
        1 + pyCount pattern ((c :: rest).drop pattern.length)
      else
        pyCount pattern rest
termination_by text.length
decreasing_by
  · have hlen : 1 ≤ pattern.length := by
      cases pattern with
      | nil => exact absurd rfl h
      | cons x xs => simp
    simp only [List.length_drop, List.length_cons]
    omega
  · simp only [List.length_cons]
    omega

/-- Python `text.lower()` restricted to the characters that occur in this
code base (`Char.toLower` agrees with Python on ASCII). -/
def pyLower (text : String) : List Char :=
  text.toList.map Char.toLower

namespace DifficultyAgent

/-- `DifficultyAgent._age_based_difficulty` (difficulty_agent.py:93-98):
new users always start with medium difficulty, whatever their age. -/
def age_based_difficulty (age : ℤ) : String := "medium"

/-- `DifficultyAgent._recommend_difficulty` (difficulty_agent.py:62-91).
`quiz_history` is the list of past scores, most recent first (the score
values of the `quiz_history` dicts; the orchestrator passes the stored
integer percentages).  The source reads `quiz_history[0]["score"]`,
normalizes it by `score / 100 if score > 1 else score` and compares the
result against the literals `0.5` and `0.8`. -/
def recommend_difficulty (quiz_history : List ℚ) (age : ℤ) : String :=
  match quiz_history with
  | [] => age_based_difficulty age
  | most_recent_score :: _ =>
    let normalized_score : ℚ :=
      if most_recent_score > 1 then most_recent_score / 100 else most_recent_score
    if normalized_score < 0.5 then "easy"
    else if normalized_score < 0.8 then "medium"
    else "hard"

end DifficultyAgent

/-- One quiz question (the dicts produced by the quiz agent; see the
`question`, `options`, `correct_answer`, `explanation`, `question_id`
keys read in evaluator_agent.py and orchestrator.py). -/
structure Question where
  question_id : String
  question : String
  options : List String
  correct_answer : ℤ
  explanation : String
deriving Repr, DecidableEq, Inhabited

namespace EvaluatorAgent

/-- The result of `EvaluatorAgent._calculate_score`. -/
structure ScoreInfo where
  correct_count : ℕ
  max_score : ℕ
  score : ℤ
  percentage : ℚ
deriving Repr, DecidableEq

/-- The loop of `EvaluatorAgent._calculate_score` (evaluator_agent.py:79-83):
`for i, question in enumerate(questions): if i < len(answers) and
answers[i] == question.get("correct_answer", -1): correct_count += 1`.
The index bookkeeping is replaced by simultaneous recursion on the two
lists, which pairs `questions[i]` with `answers[i]` exactly as the loop
does. -/
def count_correct : List Question → List ℤ → ℕ
  | [], _ => 0
  | _ :: _, [] => 0
  | q :: qs, a :: rest =>
    (if a = q.correct_answer then 1 else 0) + count_correct qs rest

/-- `EvaluatorAgent._calculate_score` (evaluator_agent.py:73-92).
`percentage = correct_count / max_score * 100 if max_score > 0 else 0`;
`score = int(percentage)`. -/
def calculate_score (questions : List Question) (answers : List ℤ) : ScoreInfo :=
  let correct_count := count_correct questions answers
  let max_score := questions.length
  let percentage : ℚ :=
    if max_score > 0 then (correct_count : ℚ) / (max_score : ℚ) * 100 else 0
  { correct_count := correct_count
    max_score := max_score
    score := pyInt percentage
    percentage := percentage }

/-- `EvaluatorAgent._generate_feedback` (evaluator_agent.py:94-114): a
congratulatory message selected by percentage band. -/
def generate_feedback (name : String) (si : ScoreInfo) : String :=
  let cc := si.correct_count
  let ms := si.max_score
  if si.percentage = 100 then
    s!"🌟 Amazing work, {name}! Perfect score! You have mastered this topic!"
  else if si.percentage ≥ 80 then
    s!"👏 Great job, {name}! You got {cc}/{ms} correct. Keep going!"
  else if si.percentage ≥ 60 then
    s!"📚 Good effort, {name}! You got {cc}/{ms} correct. Review the explanations to improve."
  else if si.percentage ≥ 40 then
    s!"💪 Nice try, {name}! You got {cc}/{ms} correct. Review and try again!"
  else
    s!"🎯 {name}, this is a learning opportunity! You got {cc}/{ms} correct."

/-- One entry of the `question_feedback` list
(evaluator_agent.py:133-141). -/
structure QuestionFeedback where
  question_id : String
  question : String
  is_correct : Bool
  user_answer : String
  correct_answer : String
  explanation : String
  status : String
deriving Repr, DecidableEq, Inhabited

/-- The body of the `_get_question_feedback` loop for question `i`
(evaluator_agent.py:121-141).  `user_answer_text` is only assigned when
`i < len(answers)` and `answers[i] < len(options)`; `options[answers[i]]`
and `options[correct_answer]` use Python indexing and can raise
`IndexError` (caught by `execute`). -/
def feedback_for (answers : List ℤ) (i : ℕ) (q : Question) :
    Except String QuestionFeedback := do
  let correct_answer := q.correct_answer
  let is_correct : Bool :=
    match answers.get? i with
    | some a => a = correct_answer
    | none => false
  let user_answer_text : String ←
    match answers.get? i with
    | some a =>
      if a < (q.options.length : ℤ) then pyGetStr q.options a else pure ""
    | none => pure ""
  let correct_answer_text : String ←
    if 0 ≤ correct_answer then pyGetStr q.options correct_answer else pure ""
  pure
    { question_id := q.question_id
      question := q.question
      is_correct := is_correct
      user_answer := user_answer_text
      correct_answer := correct_answer_text
      explanation := q.explanation
      status := if is_correct then "✅ Correct!" else "❌ Incorrect" }

/-- The `_get_question_feedback` loop (evaluator_agent.py:116-143),
threading the enumeration index `i`. -/
def question_feedback_from (answers : List ℤ) : ℕ → List Question →
    Except String (List QuestionFeedback)
  | _, [] => .ok []
  | i, q :: qs => do
    let fb ← feedback_for answers i q
    let rest ← question_feedback_from answers (i + 1) qs
    pure (fb :: rest)

/-- `EvaluatorAgent._get_question_feedback` (evaluator_agent.py:116-143). -/
def get_question_feedback (questions : List Question) (answers : List ℤ) :
    Except String (List QuestionFeedback) :=
  question_feedback_from answers 0 questions

/-- The dictionary returned by `EvaluatorAgent.execute`: the error dict
carries only `status`/`error`; the missing keys are modelled by the
default field values, matching the `.get(key, default)` reads in the
orchestrator (orchestrator.py:276-278). -/
structure EvalResult where
  status : String
  error : String := ""
  score : ℤ := 0
  max_score : ℕ := 0
  percentage : ℚ := 0
  correct_count : ℕ := 0
  feedback : String := ""
  question_feedback : List QuestionFeedback := []
deriving Repr, DecidableEq

/-- `EvaluatorAgent.execute` (evaluator_agent.py:19-71): empty question or
answer lists yield the structured "Missing questions or answers" error;
any exception raised while building the feedback (an `IndexError` from
`_get_question_feedback`) is caught by the surrounding `try`/`except`
and converted into an error dict, so no exception escapes. -/
def execute (questions : List Question) (answers : List ℤ)
    (user_name : String) : EvalResult :=
  if questions = [] ∨ answers = [] then
    { status := "error", error := "Missing questions or answers" }
  else
    let score_info := calculate_score questions answers
    let feedback := generate_feedback user_name score_info
    match get_question_feedback questions answers with
    | .error e => { status := "error", error := e }
    | .ok qfb =>
      { status := "success"
        score := score_info.score
        max_score := score_info.max_score
        percentage := score_info.percentage
        correct_count := score_info.correct_count
        feedback := feedback
        question_feedback := qfb }

end EvaluatorAgent

namespace GamificationAgent

/-- `self.points_per_quiz` (gamification_agent.py:20). -/
def points_per_quiz : ℕ := 10

/-- `self.points_per_perfect` (gamification_agent.py:21). -/
def points_per_perfect : ℕ := 50

/-- `self.points_per_badge` (gamification_agent.py:22). -/
def points_per_badge : ℕ := 100

/-- `self.level_threshold` (gamification_agent.py:23): points needed per
level. -/
def level_threshold : ℕ := 500

/-- `GamificationAgent._calculate_points` (gamification_agent.py:87-110). -/
def calculate_points (event_type : String) (quiz_score : ℚ) : ℕ :=
  if event_type = "quiz_completed" then
    let points := points_per_quiz
    if quiz_score = 100 then points + points_per_perfect
    else if quiz_score ≥ 80 then points + 20
    else if quiz_score ≥ 60 then points + 10
    else points
  else if event_type = "badge_earned" then points_per_badge
  else if event_type = "daily_streak" then 50
  else 0

/-- One badge dict appended by `_check_badges`
(gamification_agent.py:125-164). -/
structure BadgeInfo where
  badge_id : String
  name : String
  description : String
  icon : String
deriving Repr, DecidableEq

/-- The "First Quiz" badge (gamification_agent.py:125-130). -/
def first_quiz_badge : BadgeInfo :=
  { badge_id := "FIRST_QUIZ", name := "First Quiz Completed"
    description := "You took your first financial quiz!", icon := "🎯" }

/-- The "Perfect Score" badge (gamification_agent.py:134-139). -/
def perfect_score_badge : BadgeInfo :=
  { badge_id := "PERFECT_SCORE", name := "Perfect Score"
    description := "You got 100% on a quiz!", icon := "⭐" }

/-- The "5-Quiz Streak" badge (gamification_agent.py:142-148). -/
def streak_5_badge : BadgeInfo :=
  { badge_id := "STREAK_5", name := "5-Quiz Streak"
    description := "You completed 5 quizzes!", icon := "🔥" }

/-- The "Curious Mind" badge (gamification_agent.py:150-156). -/
def curious_mind_badge : BadgeInfo :=
  { badge_id := "CURIOUS_MIND", name := "Curious Mind"
    description := "You completed 10 quizzes!", icon := "🧠" }

/-- The "Financial Pro" badge (gamification_agent.py:158-164). -/
def financial_pro_badge : BadgeInfo :=
  { badge_id := "FINANCIAL_PRO", name := "Financial Pro"
    description := "You completed 20 quizzes - you are a pro!", icon := "🏆" }

/-- `GamificationAgent._check_badges` (gamification_agent.py:112-166): on a
`quiz_completed` event the badge list collects the milestone badges in
source order; every other event type yields no badges. -/
def check_badges (event_type : String) (quizzes_completed : ℕ)
    (quiz_score : ℚ) : List BadgeInfo :=
  if event_type = "quiz_completed" then
    (if quizzes_completed = 1 then [first_quiz_badge] else []) ++
    (if quiz_score = 100 then [perfect_score_badge] else []) ++
    (if quizzes_completed = 5 then [streak_5_badge] else []) ++
    (if quizzes_completed = 10 then [curious_mind_badge] else []) ++
    (if quizzes_completed = 20 then [financial_pro_badge] else [])
  else []

/-- `GamificationAgent._check_level_up` (gamification_agent.py:168-184):
`new_level = total_points // level_threshold + 1` when `total_points ≥
level_threshold * current_level`, otherwise the level is unchanged;
`leveled_up = new_level > current_level`. -/
def check_level_up (total_points : ℕ) (current_level : ℕ) : ℕ × Bool :=
  let new_level :=
    if total_points ≥ level_threshold * current_level then
      total_points / level_threshold + 1
    else current_level
  (new_level, decide (new_level > current_level))

/-- The progress dict built by `_get_level_progress`
(gamification_agent.py:197-202). -/
structure LevelProgress where
  current_level : ℤ
  points_in_level : ℤ
  points_needed : ℤ
  progress_percentage : ℚ
deriving Repr, DecidableEq

/-- `GamificationAgent._get_level_progress` (gamification_agent.py:186-202).
Note that `points_needed = next_level_threshold - current_level_threshold`
is the width of the level band, computed before the `max(0, ·)` guard, and
that `progress_percentage` divides the unguarded `points_in_level`. -/
def get_level_progress (total_points : ℤ) (current_level : ℤ) : LevelProgress :=
  let current_level_threshold : ℤ := (level_threshold : ℤ) * (current_level - 1)
  let next_level_threshold : ℤ := (level_threshold : ℤ) * current_level
  let points_in_level : ℤ := total_points - current_level_threshold
  let points_needed : ℤ := next_level_threshold - current_level_threshold
  { current_level := current_level
    points_in_level := max 0 points_in_level
    points_needed := max 0 points_needed
    progress_percentage :=
      if points_needed > 0 then
        (points_in_level : ℚ) / (points_needed : ℚ) * 100
      else 0 }

/-- The dictionary returned by `GamificationAgent.execute`
(gamification_agent.py:67-77).  As in `EvalResult`, missing keys of the
error dict are modelled by field defaults. -/
structure GamResult where
  status : String
  points_earned : ℕ := 0
  total_points : ℕ := 0
  badges_earned : List BadgeInfo := []
  current_level : ℕ := 1
  leveled_up : Bool := false
  level_progress : LevelProgress :=
    { current_level := 0, points_in_level := 0, points_needed := 0
      progress_percentage := 0 }
deriving Repr, DecidableEq

/-- `GamificationAgent.execute` (gamification_agent.py:25-85): computes the
points for the event, the badge list, the new point total and the level
transition.  None of the helpers can raise, so the `except` branch is
dead and the result status is always "success". -/
def execute (event_type : String) (quiz_score : ℚ) (quizzes_completed : ℕ)
    (current_points : ℕ) (current_level : ℕ) : GamResult :=
  let points_earned := calculate_points event_type quiz_score
  let badges_earned := check_badges event_type quizzes_completed quiz_score
  let new_total_points := current_points + points_earned
  let lvl := check_level_up new_total_points current_level
  { status := "success"
    points_earned := points_earned
    total_points := new_total_points
    badges_earned := badges_earned
    current_level := lvl.1
    leveled_up := lvl.2
    level_progress := get_level_progress (new_total_points : ℤ) (lvl.1 : ℤ) }

end GamificationAgent

/-- `models.User` (models.py:21-35).  The source stores the badge set as a
comma-joined string (`badges.split(",")` / `",".join(...)` in
database.py:218-223); since every badge name used by the system is free
of commas, the string is modelled as the list of badge names.
Timestamps are outside the embedding. -/
structure User where
  user_id : String
  name : String
  age : ℤ
  hobbies : String
  level : ℕ := 1
  points : ℕ := 0
  badges : List String := []
deriving Repr, DecidableEq

/-- `models.QuizAttempt` (models.py:38-57), without the timestamp. -/
structure QuizAttemptRec where
  attempt_id : String
  user_id : String
  quiz_id : String
  topic : String
  difficulty : String
  score : ℤ
  max_score : ℕ
  time_taken_seconds : ℕ
  answered_questions : ℕ
  correct_answers : ℕ
  responses : String := ""
  feedback : String := ""
deriving Repr, DecidableEq

namespace Database

/-- `Database.add_badge` at the level of one user's badge list
(database.py:209-233): the badge name is appended only if it is not
already present. -/
def add_badge (current_badges : List String) (badge_name : String) :
    List String :=
  if badge_name ∈ current_badges then current_badges
  else current_badges ++ [badge_name]

end Database

/-- The SQLite state touched by `evaluate_quiz`: the `users` and
`quiz_attempts` tables (database.py:44-75).  Attempts are appended in
creation order, so "most recent first" is the reverse of the list. -/
structure Db where
  users : List User
  quiz_attempts : List QuizAttemptRec
deriving Repr, DecidableEq

namespace Database

/-- `Database.get_user` (database.py:154-177): lookup by primary key. -/
def get_user (db : Db) (user_id : String) : Option User :=
  db.users.find? (fun u => u.user_id == user_id)

/-- `Database.create_quiz_attempt` (database.py:237-256). -/
def create_quiz_attempt (db : Db) (attempt : QuizAttemptRec) : Db :=
  { db with quiz_attempts := db.quiz_attempts ++ [attempt] }

/-- `Database.update_user_points` (database.py:179-192):
`points = points + delta` for the matching user. -/
def update_user_points (db : Db) (user_id : String) (points_delta : ℕ) : Db :=
  { db with
    users := db.users.map (fun u =>
      if u.user_id == user_id then { u with points := u.points + points_delta }
      else u) }

/-- `Database.update_user_level` (database.py:194-207). -/
def update_user_level (db : Db) (user_id : String) (new_level : ℕ) : Db :=
  { db with
    users := db.users.map (fun u =>
      if u.user_id == user_id then { u with level := new_level } else u) }

/-- `Database.add_badge` (database.py:209-233) on the whole database. -/
def db_add_badge (db : Db) (user_id : String) (badge_name : String) : Db :=
  { db with
    users := db.users.map (fun u =>
      if u.user_id == user_id then
        { u with badges := add_badge u.badges badge_name }
      else u) }

/-- `Database.get_user_quiz_history` (database.py:258-307): the user's
attempts ordered by creation time descending, limited to `limit` rows. -/
def get_user_quiz_history (db : Db) (user_id : String) (limit : ℕ) :
    List QuizAttemptRec :=
  ((db.quiz_attempts.filter (fun a => a.user_id == user_id)).reverse).take limit

end Database

namespace Orchestrator

/-- One entry of the `responses_list` built in `evaluate_quiz`
(orchestrator.py:318-341). -/
structure ResponseRecord where
  question : String
  topic : String
  difficulty : String
  user_answer : String
  correct_answer : String
  is_correct : Bool
  options : List String
deriving Repr, DecidableEq

/-- The loop body of orchestrator.py:319-341 for question `i`:
`user_answer_idx = answers[i] if i < len(answers) else -1`; the option
texts are only read behind both bounds guards, so this step never
raises. -/
def build_response (answers : List ℤ) (topic difficulty : String)
    (i : ℕ) (q : Question) : ResponseRecord :=
  let user_answer_idx : ℤ :=
    match answers.get? i with
    | some a => a
    | none => -1
  if h : 0 ≤ user_answer_idx ∧ user_answer_idx < (q.options.length : ℤ) then
    let user_answer_text := q.options.get ⟨user_answer_idx.toNat, by omega⟩
    let correct_idx := q.correct_answer
    if h2 : 0 ≤ correct_idx ∧ correct_idx < (q.options.length : ℤ) then
      { question := q.question, topic := topic, difficulty := difficulty
        user_answer := user_answer_text
        correct_answer := q.options.get ⟨correct_idx.toNat, by omega⟩
        is_correct := decide (user_answer_idx = correct_idx)
        options := q.options }
    else
      { question := q.question, topic := topic, difficulty := difficulty
        user_answer := user_answer_text, correct_answer := ""
        is_correct := false, options := q.options }
  else
    { question := q.question, topic := topic, difficulty := difficulty
      user_answer := "", correct_answer := "", is_correct := false
      options := q.options }

/-- The `responses_list` of orchestrator.py:318-341. -/
def build_responses (questions : List Question) (answers : List ℤ)
    (topic difficulty : String) : List ResponseRecord :=
  (questions.enum).map (fun p => build_response answers topic difficulty p.1 p.2)

/-- The dictionary returned by `Orchestrator.evaluate_quiz`
(orchestrator.py:382-395 on success, orchestrator.py:401-406 on error). -/
structure EvalQuizResult where
  status : String
  error : String := ""
  score : ℤ := 0
  percentage : ℚ := 0
  feedback : String := ""
  points_earned : ℕ := 0
  badges_earned : List GamificationAgent.BadgeInfo := []
  new_level : ℕ := 0
  leveled_up : Bool := false
  question_feedback : List EvaluatorAgent.QuestionFeedback := []
deriving Repr, DecidableEq

/-- The `try` body of `Orchestrator.evaluate_quiz` (orchestrator.py:250-395).
orchestrator.py imports `logging`, `uuid`, `typing` and `datetime` but
never `json`, so the statement `responses_json = json.dumps(responses_list)`
at orchestrator.py:343 raises `NameError: name 'json' is not defined`.
Everything after that line — `create_quiz_attempt`, `update_user_points`,
`update_user_level`, `add_badge` and the success dict — is modelled
faithfully but is unreachable.  Trace writes are best-effort and carry no
pipeline state, so they are outside the model. -/
def evaluate_quiz_body (db : Db) (user_id : String)
    (questions : List Question) (answers : List ℤ)
    (topic difficulty : String) : Except String (EvalQuizResult × Db) := do
  -- Step 1: get user (orchestrator.py:256-260); fatal if absent.
  let user : User ←
    match Database.get_user db user_id with
    | some u => pure u
    | none => throw s!"User {user_id} not found"
  -- Step 2: evaluate (orchestrator.py:262-278).
  let eval_result := EvaluatorAgent.execute questions answers user.name
  let score := eval_result.score
  let percentage := eval_result.percentage
  let feedback := eval_result.feedback
  -- Step 3: gamification (orchestrator.py:285-304).
  let quiz_history := Database.get_user_quiz_history db user_id 100
  let gamification_result :=
    GamificationAgent.execute "quiz_completed" percentage
      (quiz_history.length + 1) user.points user.level
  let points_earned := gamification_result.points_earned
  let badges_earned := gamification_result.badges_earned
  let new_level := gamification_result.current_level
  let leveled_up := gamification_result.leveled_up
  -- Step 4: update database (orchestrator.py:313-374).
  let responses_list := build_responses questions answers topic difficulty
  -- orchestrator.py:343 `json.dumps(responses_list)`: NameError.
  let responses_json : String ← throw "NameError: name 'json' is not defined"
  let quiz_attempt : QuizAttemptRec :=
    { attempt_id := "", user_id := user_id, quiz_id := ""
      topic := topic, difficulty := difficulty
      score := pyInt percentage, max_score := questions.length
      time_taken_seconds := 0, answered_questions := answers.length
      correct_answers := eval_result.correct_count
      responses := responses_json }
  let db := Database.create_quiz_attempt db quiz_attempt
  let db := Database.update_user_points db user_id points_earned
  let db := Database.update_user_level db user_id new_level
  let db := badges_earned.foldl
    (fun d b => Database.db_add_badge d user_id b.name) db
  pure
    ({ status := "success", score := score, percentage := percentage
       feedback := feedback, points_earned := points_earned
       badges_earned := badges_earned, new_level := new_level
       leveled_up := leveled_up
       question_feedback := eval_result.question_feedback }, db)

/-- `Orchestrator.evaluate_quiz` (orchestrator.py:234-406): the outer
`except` converts any exception into an error dict (orchestrator.py:397-406)
and, since every database write sits after the raising statement, leaves
the database unchanged. -/
def evaluate_quiz (db : Db) (user_id : String) (questions : List Question)
    (answers : List ℤ) (topic difficulty : String) : EvalQuizResult × Db :=
  match evaluate_quiz_body db user_id questions answers topic difficulty with
  | .ok r => r
  | .error e => ({ status := "error", error := e }, db)

end Orchestrator

namespace ChunkingService

/-- The `while start < len(text)` loop of `ChunkingService.chunk_text`
(chunker.py:27-41), with an explicit fuel parameter: `none` means the
loop has not reached its exit condition within `fuel` iterations.  Each
pass slices `text[start:end]` with `end = min(start + chunk_size,
len(text))`, appends the stripped slice, and sets
`start = end - chunk_overlap`. -/
def chunk_text_loop (chunk_size chunk_overlap : ℕ) (text : String) :
    ℕ → ℤ → List String → Option (List String)
  | 0, _, _ => none
  | fuel + 1, start, chunks =>
    if start < (text.length : ℤ) then
      let stop : ℤ := min (start + (chunk_size : ℤ)) (text.length : ℤ)
      let chunk := pySlice text start stop
      chunk_text_loop chunk_size chunk_overlap text fuel
        (stop - (chunk_overlap : ℤ)) (chunks ++ [chunk.trim])
    else
      some (chunks.filter (fun c => c.length > 50))

/-- `ChunkingService.chunk_text` (chunker.py:27-41) run with `fuel`
iterations allowed; the service defaults are `chunk_size = 300`,
`chunk_overlap = 50` (chunker.py:18). -/
def chunk_text (chunk_size chunk_overlap : ℕ) (text : String) (fuel : ℕ) :
    Option (List String) :=
  chunk_text_loop chunk_size chunk_overlap text fuel 0 []

end ChunkingService

namespace VectorStore

/-- The fixed vocabulary of `VectorStore._simple_embedding`
(vectorstore.py:102-109); note that `"goal"` occurs twice, exactly as in
the source list. -/
def financial_terms : List String :=
  ["money", "save", "spend", "earn", "invest", "budget", "credit",
   "debt", "interest", "goal", "bank", "account", "stock", "bond",
   "profit", "loss", "income", "expense", "financial", "wealth",
   "rich", "poor", "buy", "sell", "trade", "price", "value",
   "kid", "child", "education", "learn", "understand", "financial literacy",
   "smart", "wise", "future", "plan", "goal", "business", "work"]

/-- The term-frequency vector of `VectorStore._simple_embedding`
(vectorstore.py:92-123): `embedding[i] = text.lower().count(term_i)`.
The source then divides the vector by its Euclidean norm when that norm
is positive; cosine similarity is invariant under this positive
rescaling (and a zero vector stays zero), so the stored vector is
modelled unnormalized. -/
def simple_embedding (text : String) : List ℕ :=
  financial_terms.map (fun term => pyCount term.toList (pyLower text))

/-- `np.dot` on two term-frequency vectors. -/
def dotN : List ℕ → List ℕ → ℕ
  | [], _ => 0
  | _, [] => 0
  | x :: xs, y :: ys => x * y + dotN xs ys

/-- `VectorStore._cosine_similarity` (vectorstore.py:125-134) in exact real
arithmetic: `dot / (norm1 * norm2)` with `norm v = sqrt (v ⬝ v)`.  The
source returns `0.0` when either norm is zero; in Lean division by zero
is zero, so the same formula covers that branch. -/
noncomputable def cosine_similarity (v1 v2 : List ℕ) : ℝ :=
  (dotN v1 v2 : ℝ) / (Real.sqrt (dotN v1 v1) * Real.sqrt (dotN v2 v2))

/-- The square of `cosine_similarity`, as an exact rational.  On
term-frequency vectors the cosine is non-negative, so squaring is an
order isomorphism: comparisons of `sim_score_sq` decide comparisons of
the real cosine (proved in `sim_score_sq_le_iff` below), which makes the
sort key computable. -/
def sim_score_sq (v1 v2 : List ℕ) : ℚ :=
  (dotN v1 v2 : ℚ) ^ 2 / ((dotN v1 v1 : ℚ) * (dotN v2 v2 : ℚ))

/-- One document of the store: an entry of the insertion-ordered
`self.vectors` dict together with its `self.metadata` entry
(vectorstore.py:26-27, 43-48). -/
structure StoredDoc where
  id : String
  embedding : List ℕ
  content : String
  source : String
  chunk_index : ℕ
deriving Repr, DecidableEq

/-- A chunk as produced by the chunking service
(chunker.py:115-121). -/
structure Chunk where
  id : String
  content : String
  source : String
  chunk_index : ℕ
deriving Repr, DecidableEq

/-- `VectorStore.add_documents` (vectorstore.py:31-55): each chunk is
embedded and appended in order (Python dicts preserve insertion
order). -/
def add_documents (store : List StoredDoc) (chunks : List Chunk) :
    List StoredDoc :=
  chunks.foldl
    (fun s c =>
      s ++ [{ id := c.id, embedding := simple_embedding c.content
              content := c.content, source := c.source
              chunk_index := c.chunk_index }])
    store

/-- The comparator realized by
`sorted(scores.items(), key=lambda x: x[1], reverse=True)`
(vectorstore.py:76): document `a` may precede document `b` iff the
query's similarity to `a` is at least its similarity to `b`.  The
decidable squared-cosine proxy realizes the real-valued comparison. -/
def search_le (query_embedding : List ℕ) (a b : StoredDoc) : Bool :=
  decide (sim_score_sq query_embedding b.embedding ≤
          sim_score_sq query_embedding a.embedding)

/-- The full descending ranking computed inside `VectorStore.search`
(vectorstore.py:67-76).  Python's `sorted` is a stable sort (also with
`reverse=True`), modelled by the stable `List.mergeSort`. -/
def search_ranking (store : List StoredDoc) (query : String) :
    List StoredDoc :=
  store.mergeSort (search_le (simple_embedding query))

/-- `VectorStore.search` (vectorstore.py:57-90): an empty store returns
`[]` (vectorstore.py:62-64); otherwise the ranking is truncated to
`top_k`.  The source re-packages each document as an
`{id, content, source, similarity_score}` dict; the stored entries are
returned directly here. -/
def search (store : List StoredDoc) (query : String) (top_k : ℕ) :
    List StoredDoc :=
  if store = [] then []
  else (search_ranking store query).take top_k

end VectorStore

/-- Repeated submission processing as performed by the orchestrator
(orchestrator.py:289-304, 363-365): each completed quiz adds its earned
points to the running total and replaces the level by
`check_level_up(new_total, current_level)`. -/
def run_point_events (points level : ℕ) (deltas : List ℕ) : ℕ × ℕ :=
  deltas.foldl
    (fun s d => (s.1 + d, (GamificationAgent.check_level_up (s.1 + d) s.2).1))
    (points, level)

/-- Concrete question fixture: four options, correct index 3. -/
def demo_q : Question :=
  { question_id := "q_0", question := "2 + 2 = ?"
    options := ["1", "2", "3", "4"], correct_answer := 3
    explanation := "Basic addition." }

/-- Concrete question fixture: four options, correct index 0. -/
def demo_q1 : Question :=
  { question_id := "q_1", question := "3 + 3 = ?"
    options := ["6", "2", "3", "4"], correct_answer := 0
    explanation := "Basic addition." }

/-- Concrete question fixture: four options, correct index 1. -/
def demo_q2 : Question :=
  { question_id := "q_2", question := "5 + 5 = ?"
    options := ["1", "10", "3", "4"], correct_answer := 1
    explanation := "Basic addition." }

/-- Concrete registered user fixture. -/
def demo_user : User :=
  { user_id := "u1", name := "Alice", age := 9, hobbies := "reading"
    level := 1, points := 0, badges := [] }

/-- Concrete database fixture containing exactly `demo_user`. -/
def demo_db : Db := { users := [demo_user], quiz_attempts := [] }

/-- Concrete stored document fixture. -/
def demo_doc1 : VectorStore.StoredDoc :=
  { id := "d1", embedding := VectorStore.simple_embedding "save money"
    content := "save money", source := "s.txt", chunk_index := 0 }

/-- Concrete stored document fixture with the same content as
`demo_doc1` (hence the same embedding and the same similarity to every
query), inserted later. -/
def demo_doc2 : VectorStore.StoredDoc :=
  { id := "d2", embedding := VectorStore.simple_embedding "save money"
    content := "save money", source := "s.txt", chunk_index := 1 }

/-- C2 counterexample input: a quiz history whose most recent stored score
is the integer percentage 1 (i.e. 1%). -/
def c2_history : List ℚ := [1]

/-- **C2, counterexample.**  The claim states that a most-recent score
`s < 50` (given as a 0-100 percentage) yields "easy".  For `s = 1` the
normalization `score / 100 if score > 1 else score` leaves the value at
`1.0`, which is not below the `0.8` threshold, so the recommender
returns "hard". -/
theorem c2_counterexample :
    DifficultyAgent.recommend_difficulty c2_history 10 = "hard"
    ∧ (1 : ℚ) < 50 := by
  constructor
  · norm_num [c2_history, DifficultyAgent.recommend_difficulty]
  · norm_num

/-- **C2 (amended).**  For a most-recent score `s` that is `0` or exceeds
`1`, the difficulty tiers follow the claimed thresholds (easy below 50,
medium in `[50, 80)`, hard at or above 80); scores in `(0, 1]` are
treated as 0-1 fractions by the normalization, so the integer
percentage `1` falls outside the claimed behaviour.  An empty history
yields "medium" for every age. -/
theorem c2_difficulty_thresholds (s : ℚ) (rest : List ℚ) (age age2 : ℤ)
    (h : s = 0 ∨ 1 < s) :
    DifficultyAgent.recommend_difficulty (s :: rest) age =
      (if s < 50 then "easy" else if s < 80 then "medium" else "hard")
    ∧ DifficultyAgent.recommend_difficulty [] age2 = "medium" := by
  constructor
  · show (let normalized : ℚ := if s > 1 then s / 100 else s
      if normalized < 0.5 then "easy"
      else if normalized < 0.8 then "medium"
      else "hard") = _
    rcases h with rfl | h
    · norm_num
    · have e1 : (s / 100 < (0.5 : ℚ)) ↔ s < 50 := by
        rw [div_lt_iff₀ (by norm_num : (0 : ℚ) < 100)]; norm_num
      have e2 : (s / 100 < (0.8 : ℚ)) ↔ s < 80 := by
        rw [div_lt_iff₀ (by norm_num : (0 : ℚ) < 100)]; norm_num
      simp only [if_pos h, e1, e2]
  · rfl

/-- **C2, witness.** -/
theorem c2_witness :
    DifficultyAgent.recommend_difficulty [(85 : ℚ)] 10 = "hard"
    ∧ DifficultyAgent.recommend_difficulty [] 7 = "medium" := by
  obtain ⟨h1, h2⟩ :=
    c2_difficulty_thresholds 85 [] 10 7 (Or.inr (by norm_num))
  refine ⟨h1.trans ?_, h2⟩
  norm_num

/-- The specification-side count of correct answers: the number of indices
`i` with `answers[i]` equal to `questions[i].correct_answer`. -/
theorem count_correct_spec (qs : List Question) (ans : List ℤ) :
    EvaluatorAgent.count_correct qs ans =
      (List.range qs.length).countP
        (fun i => decide (ans.get? i = (qs.get? i).map Question.correct_answer)) := by
  induction qs generalizing ans with
  | nil => simp [EvaluatorAgent.count_correct]
  | cons q qs ih =>
    cases ans with
    | nil =>
      rw [show EvaluatorAgent.count_correct (q :: qs) [] = 0 from rfl]
      symm
      rw [List.countP_eq_zero]
      intro i hi
      simp only [List.mem_range] at hi
      simp [List.getElem?_eq_getElem (show i < (q :: qs).length by simpa using hi)]
    | cons a rest =>
      rw [show EvaluatorAgent.count_correct (q :: qs) (a :: rest) =
        (if a = q.correct_answer then 1 else 0) +
          EvaluatorAgent.count_correct qs rest from rfl]
      rw [List.length_cons, List.range_succ_eq_map, List.countP_cons,
        List.countP_map, ih rest]
      simp [Function.comp_def, Nat.succ_eq_add_one, add_comm]

/-- **C3, counterexample.**  Three questions with two correct answers give
`percentage = 200/3 ≈ 66.67`; the claim says the score is the rounded
percentage (67), but `_calculate_score` computes `int(percentage)`,
which truncates to 66. -/
theorem c3_counterexample :
    (EvaluatorAgent.calculate_score [demo_q, demo_q1, demo_q2] [3, 0, 0]).score = 66
    ∧ round (EvaluatorAgent.calculate_score [demo_q, demo_q1, demo_q2] [3, 0, 0]).percentage = 67
    ∧ (66 : ℤ) ≠ 67 := by
  have hcc : EvaluatorAgent.count_correct [demo_q, demo_q1, demo_q2] [3, 0, 0] = 2 := by
    decide
  have hpct :
      (EvaluatorAgent.calculate_score [demo_q, demo_q1, demo_q2] [3, 0, 0]).percentage
        = 200 / 3 := by
    simp only [EvaluatorAgent.calculate_score, hcc]
    norm_num
  have hscore :
      (EvaluatorAgent.calculate_score [demo_q, demo_q1, demo_q2] [3, 0, 0]).score
        = pyInt ((EvaluatorAgent.calculate_score [demo_q, demo_q1, demo_q2] [3, 0, 0]).percentage) :=
    rfl
  refine ⟨?_, ?_, by norm_num⟩
  · rw [hscore, hpct, pyInt, if_pos (by norm_num : (0 : ℚ) ≤ 200 / 3)]
    rw [Int.floor_eq_iff]
    constructor <;> norm_num
  · rw [hpct, round_eq, Int.floor_eq_iff]
    constructor <;> norm_num

/-- **C3 (amended).**  `_calculate_score` computes `correct_count` as the
number of indices `i` with `answers[i]` equal to
`questions[i].correct_answer`, `percentage` as
`100 × correct_count / max(1, len(questions))`, and `score` as the
percentage truncated toward zero (`int(percentage)`, i.e. its floor) —
not rounded to the nearest integer as the original claim stated. -/
theorem c3_score_formula (qs : List Question) (ans : List ℤ) :
    (EvaluatorAgent.calculate_score qs ans).correct_count =
      (List.range qs.length).countP
        (fun i => decide (ans.get? i = (qs.get? i).map Question.correct_answer))
    ∧ (EvaluatorAgent.calculate_score qs ans).percentage =
        100 * ((EvaluatorAgent.calculate_score qs ans).correct_count : ℚ) /
          ((max 1 qs.length : ℕ) : ℚ)
    ∧ (EvaluatorAgent.calculate_score qs ans).score =
        ⌊(EvaluatorAgent.calculate_score qs ans).percentage⌋ := by
  refine ⟨count_correct_spec qs ans, ?_, ?_⟩
  · show (if 0 < qs.length then
        (EvaluatorAgent.count_correct qs ans : ℚ) / (qs.length : ℚ) * 100 else 0) =
      100 * ((EvaluatorAgent.count_correct qs ans : ℚ)) / ((max 1 qs.length : ℕ) : ℚ)
    rcases Nat.eq_zero_or_pos qs.length with h | h
    · have hq : qs = [] := List.length_eq_zero.mp h
      subst hq
      simp [EvaluatorAgent.count_correct]
    · rw [if_pos h, max_eq_right h]
      ring
  · have hp : 0 ≤ (EvaluatorAgent.calculate_score qs ans).percentage := by
      show 0 ≤ (if 0 < qs.length then
        (EvaluatorAgent.count_correct qs ans : ℚ) / (qs.length : ℚ) * 100 else 0)
      split_ifs
      · positivity
      · exact le_rfl
    show pyInt ((EvaluatorAgent.calculate_score qs ans).percentage) = _
    rw [pyInt, if_pos hp]

/-- **C4 (confirmed).**  `_calculate_points` awards 10 base points for a
completed quiz plus exactly one bonus — 50 for a perfect 100%, else 20
at 80% or above, else 10 at 60% or above, else nothing — so a perfect
quiz earns exactly 60 points; a `badge_earned` event awards 100 points
and a `daily_streak` event awards 50. -/
theorem c4_point_policy (p : ℚ) :
    GamificationAgent.calculate_points "quiz_completed" p =
      10 + (if p = 100 then 50 else if 80 ≤ p then 20 else if 60 ≤ p then 10 else 0)
    ∧ GamificationAgent.calculate_points "quiz_completed" 100 = 60
    ∧ GamificationAgent.calculate_points "badge_earned" p = 100
    ∧ GamificationAgent.calculate_points "daily_streak" p = 50 := by
  refine ⟨?_, ?_, rfl, rfl⟩
  · show (if p = 100 then 10 + 50 else if p ≥ 80 then 10 + 20
        else if p ≥ 60 then 10 + 10 else 10) = _
    split_ifs <;> rfl
  · show (if (100 : ℚ) = 100 then 10 + 50 else if (100 : ℚ) ≥ 80 then 10 + 20
        else if (100 : ℚ) ≥ 60 then 10 + 10 else 10) = 60
    norm_num

/-- The level computed by `_check_level_up` never drops below the current
level. -/
theorem check_level_up_le (t L : ℕ) :
    L ≤ (GamificationAgent.check_level_up t L).1 := by
  show L ≤ (if t ≥ GamificationAgent.level_threshold * L then
    t / GamificationAgent.level_threshold + 1 else L)
  rw [GamificationAgent.level_threshold]
  split_ifs with h
  · omega
  · exact le_rfl

/-- The running level along any sequence of submissions never drops below
the starting level. -/
theorem run_point_events_le (deltas : List ℕ) :
    ∀ (t L : ℕ), L ≤ (run_point_events t L deltas).2 := by
  induction deltas with
  | nil => intro t L; exact le_rfl
  | cons d ds ih =>
    intro t L
    exact le_trans (check_level_up_le (t + d) L) (ih (t + d) _)

/-- **C5 (confirmed).**  `_check_level_up` returns
`max(current_level, total_points / 500 + 1)` together with the level-up
flag, hence the level never decreases — in particular it is
non-decreasing along any sequence of non-negative point deltas — and a
level-1 user reaching 520 points levels up to level 2. -/
theorem c5_level_policy (t L : ℕ) :
    GamificationAgent.check_level_up t L =
      (max L (t / 500 + 1), decide (max L (t / 500 + 1) > L))
    ∧ L ≤ (GamificationAgent.check_level_up t L).1
    ∧ (∀ deltas : List ℕ, L ≤ (run_point_events t L deltas).2)
    ∧ GamificationAgent.check_level_up 520 1 = (2, true) := by
  have hmax : (if t ≥ GamificationAgent.level_threshold * L then
      t / GamificationAgent.level_threshold + 1 else L) = max L (t / 500 + 1) := by
    rw [GamificationAgent.level_threshold]
    split_ifs with h
    · omega
    · omega
  refine ⟨?_, check_level_up_le t L, fun ds => run_point_events_le ds t L, by decide⟩
  show (if t ≥ GamificationAgent.level_threshold * L then
      t / GamificationAgent.level_threshold + 1 else L,
    decide ((if t ≥ GamificationAgent.level_threshold * L then
      t / GamificationAgent.level_threshold + 1 else L) > L)) = _
  rw [hmax]

/-- **C10, counterexample.**  For a user at 480 points on level 1 the claim
says the progress object reports `500×1 − 480 = 20` points still needed,
but `_get_level_progress` reports
`next_level_threshold − current_level_threshold = 500`. -/
theorem c10_counterexample :
    (GamificationAgent.get_level_progress 480 1).points_needed = 500
    ∧ (500 : ℤ) * 1 - 480 = 20
    ∧ (GamificationAgent.get_level_progress 480 1).points_needed ≠ 500 * 1 - 480 := by
  refine ⟨rfl, by norm_num, ?_⟩
  rw [show (GamificationAgent.get_level_progress 480 1).points_needed = 500 from rfl]
  norm_num

/-- **C10 (amended).**  The progress object reports
`points_in_level = max(0, t − 500×(L−1))` as claimed, but reports as
`points_needed` the full width of the level band,
`max(0, 500×L − 500×(L−1)) = 500`, independent of the user's points —
not the remaining `500×L − t` stated by the original claim. -/
theorem c10_level_progress (t L : ℤ) :
    (GamificationAgent.get_level_progress t L).points_in_level =
      max 0 (t - 500 * (L - 1))
    ∧ (GamificationAgent.get_level_progress t L).points_needed = 500 := by
  constructor
  · show max 0 (t - (GamificationAgent.level_threshold : ℤ) * (L - 1)) = _
    rw [GamificationAgent.level_threshold]
    norm_num
  · show max 0 ((GamificationAgent.level_threshold : ℤ) * L -
      (GamificationAgent.level_threshold : ℤ) * (L - 1)) = 500
    rw [GamificationAgent.level_threshold]
    have : (((500 : ℕ) : ℤ)) * L - (((500 : ℕ) : ℤ)) * (L - 1) = 500 := by ring
    rw [this]
    norm_num

/-- Appending a fresh badge name preserves distinctness of the badge
list. -/
theorem add_badge_nodup (badges : List String) (name : String)
    (h : badges.Nodup) : (Database.add_badge badges name).Nodup := by
  rw [Database.add_badge]
  split_ifs with hm
  · exact h
  · simpa [List.nodup_append] using ⟨h, hm⟩

/-- Any fold of badge grants starting from a duplicate-free badge list
stays duplicate-free. -/
theorem foldl_add_badge_nodup (grants : List String) :
    ∀ (badges : List String), badges.Nodup →
      (grants.foldl Database.add_badge badges).Nodup := by
  induction grants with
  | nil => intro badges h; exact h
  | cons g gs ih =>
    intro badges h
    exact ih _ (add_badge_nodup badges g h)

/-- **C6 (confirmed).**  On a `quiz_completed` event the badge list
contains `FIRST_QUIZ` exactly when the lifetime count is 1,
`PERFECT_SCORE` exactly when the percentage is 100, and the streak
badges exactly at counts 5, 10 and 20; other event types grant no
badges.  `Database.add_badge` leaves the badge set unchanged when the
name is already present, preserves distinctness, and any sequence of
grants starting from the empty badge set of a fresh user — including
grants applied through the users table — never stores the same badge
name twice. -/
theorem c6_badge_policy (count : ℕ) (score : ℚ) :
    (GamificationAgent.check_badges "quiz_completed" count score).map
        GamificationAgent.BadgeInfo.badge_id =
      (if count = 1 then ["FIRST_QUIZ"] else []) ++
      (if score = 100 then ["PERFECT_SCORE"] else []) ++
      (if count = 5 then ["STREAK_5"] else []) ++
      (if count = 10 then ["CURIOUS_MIND"] else []) ++
      (if count = 20 then ["FINANCIAL_PRO"] else [])
    ∧ GamificationAgent.check_badges "badge_earned" count score = []
    ∧ GamificationAgent.check_badges "daily_streak" count score = []
    ∧ (∀ (badges : List String) (name : String), name ∈ badges →
        Database.add_badge badges name = badges)
    ∧ (∀ (badges : List String) (name : String), badges.Nodup →
        (Database.add_badge badges name).Nodup)
    ∧ (∀ grants : List String, (grants.foldl Database.add_badge []).Nodup)
    ∧ (∀ (db : Db) (uid name : String),
        (∀ u ∈ db.users, u.badges.Nodup) →
        ∀ u ∈ (Database.db_add_badge db uid name).users, u.badges.Nodup) := by
  refine ⟨?_, rfl, rfl, ?_, add_badge_nodup, fun grants =>
    foldl_add_badge_nodup grants [] List.nodup_nil, ?_⟩
  · rw [GamificationAgent.check_badges, if_pos rfl]
    split_ifs <;> rfl
  · intro badges name h
    rw [Database.add_badge, if_pos h]
  · intro db uid name hall u hu
    rw [Database.db_add_badge] at hu
    simp only [List.mem_map] at hu
    obtain ⟨v, hv, rfl⟩ := hu
    split_ifs
    · exact add_badge_nodup v.badges name (hall v hv)
    · exact hall v hv

/-- **C6, witness.** -/
theorem c6_badge_policy_witness :
    (GamificationAgent.check_badges "quiz_completed" 1 100).map
        GamificationAgent.BadgeInfo.badge_id = ["FIRST_QUIZ", "PERFECT_SCORE"]
    ∧ Database.add_badge ["First Quiz Completed"] "First Quiz Completed" =
        ["First Quiz Completed"]
    ∧ (Database.add_badge ["Perfect Score"] "First Quiz Completed").Nodup
    ∧ (["First Quiz Completed", "Perfect Score",
        "First Quiz Completed"].foldl Database.add_badge []).Nodup
    ∧ (∀ u ∈ (Database.db_add_badge demo_db "u1" "Perfect Score").users,
        u.badges.Nodup) := by
  have h := c6_badge_policy 1 100
  refine ⟨?_, ?_, ?_, ?_, ?_⟩
  · rw [h.1]
    norm_num
  · exact h.2.2.2.1 _ _ (by simp)
  · exact h.2.2.2.2.1 _ _ (by simp)
  · exact h.2.2.2.2.2.1 _
  · exact h.2.2.2.2.2.2 demo_db "u1" "Perfect Score"
      (by intro u hu; simp only [demo_db, demo_user, List.mem_singleton] at hu;
          subst hu; exact List.nodup_nil)

/-- Once inside the `while` loop with a positive overlap, the restart
position `end - chunk_overlap` is always strictly below `len(text)`, so
the loop guard never becomes false: the loop consumes any amount of
fuel without terminating. -/
theorem chunk_text_loop_none (chunk_size chunk_overlap : ℕ) (text : String)
    (hov : 0 < chunk_overlap) :
    ∀ (fuel : ℕ) (start : ℤ) (chunks : List String),
      start < (text.length : ℤ) →
      ChunkingService.chunk_text_loop chunk_size chunk_overlap text fuel
        start chunks = none := by
  intro fuel
  induction fuel with
  | zero => intro start chunks h; rfl
  | succ n ih =>
    intro start chunks h
    rw [ChunkingService.chunk_text_loop, if_pos h]
    apply ih
    have hmin : min (start + (chunk_size : ℤ)) (text.length : ℤ) ≤
        (text.length : ℤ) := min_le_right _ _
    omega

/-- **C8 (code bug).**  For every non-empty input text and every positive
overlap — in particular the service defaults `chunk_size = 300`,
`chunk_overlap = 50` — `chunk_text` never reaches its exit condition:
after the final slice the loop restarts at `len(text) - chunk_overlap`,
which still satisfies `start < len(text)`, so the claimed terminating
fixed-window chunking never returns. -/
theorem c8_chunk_text_diverges (chunk_size chunk_overlap : ℕ) (text : String)
    (fuel : ℕ) (hov : 0 < chunk_overlap) (htext : 0 < text.length) :
    ChunkingService.chunk_text chunk_size chunk_overlap text fuel = none :=
  chunk_text_loop_none chunk_size chunk_overlap text hov fuel 0 []
    (by exact_mod_cast htext)

/-- **C8, witness.** -/
theorem c8_witness :
    ChunkingService.chunk_text 300 50 "Money is earned by working." 1000 = none :=
  c8_chunk_text_diverges 300 50 "Money is earned by working." 1000
    (by norm_num) (by decide)

/-- **C1 (code bug).**  For every database in which the user exists and
every well-formed non-empty question and answer list, `evaluate_quiz`
does not return the claimed aggregated success result: orchestrator.py
never imports `json`, so `json.dumps(responses_list)` at
orchestrator.py:343 raises `NameError`, the outer handler returns an
error dict, and — since the `QuizAttempt` insert, the points/level
updates and the badge grants all sit after that line — nothing is
persisted. -/
theorem c1_evaluate_quiz_always_fails (db : Db) (user_id : String) (u : User)
    (questions : List Question) (answers : List ℤ) (topic difficulty : String)
    (hu : Database.get_user db user_id = some u)
    (hq : questions ≠ []) (ha : answers ≠ [])
    (hwf : ∀ q ∈ questions,
      q.options.length = 4 ∧ 0 ≤ q.correct_answer ∧ q.correct_answer < 4) :
    (Orchestrator.evaluate_quiz db user_id questions answers topic
        difficulty).1.status = "error"
    ∧ (Orchestrator.evaluate_quiz db user_id questions answers topic
        difficulty).1.error = "NameError: name 'json' is not defined"
    ∧ (Orchestrator.evaluate_quiz db user_id questions answers topic
        difficulty).2 = db := by
  rw [Orchestrator.evaluate_quiz, Orchestrator.evaluate_quiz_body, hu]
  exact ⟨rfl, rfl, rfl⟩

/-- **C1, witness.** -/
theorem c1_witness :
    (Orchestrator.evaluate_quiz demo_db "u1" [demo_q] [3] "math"
        "easy").1.status = "error"
    ∧ (Orchestrator.evaluate_quiz demo_db "u1" [demo_q] [3] "math"
        "easy").2 = demo_db := by
  have h := c1_evaluate_quiz_always_fails demo_db "u1" demo_user [demo_q] [3]
    "math" "easy" (by rfl) (by simp) (by simp) (by decide)
  exact ⟨h.1, h.2.2⟩


/-- Python indexing succeeds and returns the entry when the index is
within bounds. -/
theorem pyGetStr_ok (l : List String) (i : ℤ) (h0 : 0 ≤ i)
    (hl : i < (l.length : ℤ)) :
    pyGetStr l i = .ok (l.getD i.toNat "") := by
  simp only [pyGetStr]
  rw [if_neg (show ¬(i < 0) by omega), if_pos ⟨h0, hl⟩]

/-- Binding a successful `Except` computation runs the continuation. -/
theorem except_ok_bind {ε α β : Type} (a : α) (f : α → Except ε β) :
    (Except.ok a >>= f : Except ε β) = f a := rfl

/-- Binding a failed `Except` computation propagates the error. -/
theorem except_error_bind {ε α β : Type} (e : ε) (f : α → Except ε β) :
    (Except.error e >>= f : Except ε β) = .error e := rfl

/-- Under a valid correct-option index and non-negative answer indices,
the per-question feedback builder never raises, reports the question's
own text and explanation, and marks the question correct exactly when
the (possibly missing) answer equals the correct index. -/
theorem feedback_for_ok (answers : List ℤ) (i : ℕ) (q : Question)
    (hq : 0 ≤ q.correct_answer ∧ q.correct_answer < (q.options.length : ℤ))
    (hans : ∀ a ∈ answers, 0 ≤ a) :
    ∃ e, EvaluatorAgent.feedback_for answers i q = .ok e
      ∧ e.question = q.question
      ∧ e.explanation = q.explanation
      ∧ (e.is_correct = true ↔ answers.get? i = some q.correct_answer) := by
  have hcs := pyGetStr_ok q.options q.correct_answer hq.1 hq.2
  cases hget : answers.get? i with
  | none =>
    have heq : EvaluatorAgent.feedback_for answers i q = .ok
        { question_id := q.question_id, question := q.question
          is_correct := false, user_answer := ""
          correct_answer := q.options.getD q.correct_answer.toNat ""
          explanation := q.explanation, status := "❌ Incorrect" } := by
      rw [EvaluatorAgent.feedback_for, hget]
      simp [hq.1, hcs, except_ok_bind]
    exact ⟨_, heq, rfl, rfl, by simp⟩
  | some a =>
    have ha0 : 0 ≤ a := hans a (List.get?_mem hget)
    by_cases hlt : a < (q.options.length : ℤ)
    · have hus := pyGetStr_ok q.options a ha0 hlt
      have heq : EvaluatorAgent.feedback_for answers i q = .ok
          { question_id := q.question_id, question := q.question
            is_correct := decide (a = q.correct_answer)
            user_answer := q.options.getD a.toNat ""
            correct_answer := q.options.getD q.correct_answer.toNat ""
            explanation := q.explanation
            status := if a = q.correct_answer then "✅ Correct!"
              else "❌ Incorrect" } := by
        rw [EvaluatorAgent.feedback_for, hget]
        simp [hlt, hq.1, hcs, hus, except_ok_bind]
      refine ⟨_, heq, rfl, rfl, ?_⟩
      simp
    · have heq : EvaluatorAgent.feedback_for answers i q = .ok
          { question_id := q.question_id, question := q.question
            is_correct := decide (a = q.correct_answer)
            user_answer := ""
            correct_answer := q.options.getD q.correct_answer.toNat ""
            explanation := q.explanation
            status := if a = q.correct_answer then "✅ Correct!"
              else "❌ Incorrect" } := by
        rw [EvaluatorAgent.feedback_for, hget]
        simp [hlt, hq.1, hcs, except_ok_bind]
      refine ⟨_, heq, rfl, rfl, ?_⟩
      simp

/-- Under the same validity hypotheses, the whole feedback loop succeeds
and produces one well-formed entry per question. -/
theorem question_feedback_from_ok (answers : List ℤ)
    (hans : ∀ a ∈ answers, 0 ≤ a) :
    ∀ (qs : List Question) (i : ℕ),
      (∀ q ∈ qs, 0 ≤ q.correct_answer ∧ q.correct_answer < (q.options.length : ℤ)) →
      ∃ fbs, EvaluatorAgent.question_feedback_from answers i qs = .ok fbs
        ∧ fbs.length = qs.length
        ∧ (∀ j q, qs.get? j = some q →
            ∃ e, fbs.get? j = some e
              ∧ e.question = q.question
              ∧ e.explanation = q.explanation
              ∧ (e.is_correct = true ↔ answers.get? (i + j) = some q.correct_answer)) := by
  intro qs
  induction qs with
  | nil =>
    intro i hwf
    refine ⟨[], rfl, rfl, ?_⟩
    intro j qq h
    simp at h
  | cons q qs ih =>
    intro i hwf
    obtain ⟨e, he, heq, hexp, hic⟩ :=
      feedback_for_ok answers i q (hwf q (List.mem_cons_self q qs)) hans
    obtain ⟨fbs, hfbs, hlen, hspec⟩ :=
      ih (i + 1) (fun q' hq' => hwf q' (List.mem_cons_of_mem q hq'))
    refine ⟨e :: fbs, ?_, by simpa using hlen, ?_⟩
    · rw [EvaluatorAgent.question_feedback_from, he, except_ok_bind, hfbs,
        except_ok_bind]
      rfl
    · intro j qq hj
      cases j with
      | zero =>
        simp only [List.get?_cons_zero, Option.some.injEq] at hj
        subst hj
        exact ⟨e, rfl, heq, hexp, by simpa using hic⟩
      | succ j' =>
        simp only [List.get?_cons_succ] at hj
        obtain ⟨e', he', h1, h2, h3⟩ := hspec j' qq hj
        refine ⟨e', by simpa using he', h1, h2, ?_⟩
        have : i + 1 + j' = i + (j' + 1) := by omega
        rwa [this] at h3

/-- **C7 (confirmed).**  `EvaluatorAgent.execute` never lets an exception
escape: its result always carries status "success" or "error"; empty
question or answer lists yield the structured
"Missing questions or answers" error; and for option-index answer lists
— in particular ones shorter than the question list — it succeeds with
one well-formed feedback entry per question in which every unanswered
question is marked incorrect (the correctness flag holds exactly when
the answer at that position exists and equals the correct index, with
no out-of-range access anywhere). -/
theorem c7_evaluator_boundary (qs : List Question) (ans : List ℤ) (name : String)
    (hq : qs ≠ []) (ha : ans ≠ [])
    (hwf : ∀ q ∈ qs, 0 ≤ q.correct_answer ∧ q.correct_answer < (q.options.length : ℤ))
    (hans : ∀ a ∈ ans, 0 ≤ a) :
    (∀ (ans2 : List ℤ) (nm : String), EvaluatorAgent.execute [] ans2 nm =
      { status := "error", error := "Missing questions or answers" })
    ∧ (∀ (qs2 : List Question) (nm : String), EvaluatorAgent.execute qs2 [] nm =
      { status := "error", error := "Missing questions or answers" })
    ∧ (∀ (qs2 : List Question) (ans2 : List ℤ) (nm : String),
        (EvaluatorAgent.execute qs2 ans2 nm).status = "success"
        ∨ (EvaluatorAgent.execute qs2 ans2 nm).status = "error")
    ∧ (EvaluatorAgent.execute qs ans name).status = "success"
    ∧ (EvaluatorAgent.execute qs ans name).question_feedback.length = qs.length
    ∧ (∀ j q, qs.get? j = some q →
        ∃ e, (EvaluatorAgent.execute qs ans name).question_feedback.get? j = some e
          ∧ e.question = q.question
          ∧ e.explanation = q.explanation
          ∧ (e.is_correct = true ↔ ans.get? j = some q.correct_answer)) := by
  obtain ⟨fbs, hfbs, hlen, hspec⟩ :=
    question_feedback_from_ok ans hans qs 0 hwf
  have hexec : EvaluatorAgent.execute qs ans name =
      { status := "success"
        score := (EvaluatorAgent.calculate_score qs ans).score
        max_score := (EvaluatorAgent.calculate_score qs ans).max_score
        percentage := (EvaluatorAgent.calculate_score qs ans).percentage
        correct_count := (EvaluatorAgent.calculate_score qs ans).correct_count
        feedback := EvaluatorAgent.generate_feedback name
          (EvaluatorAgent.calculate_score qs ans)
        question_feedback := fbs } := by
    rw [EvaluatorAgent.execute, if_neg (by simp [hq, ha])]
    rw [show EvaluatorAgent.get_question_feedback qs ans =
      EvaluatorAgent.question_feedback_from ans 0 qs from rfl, hfbs]
  refine ⟨fun ans2 nm => ?_, fun qs2 nm => ?_, fun qs2 ans2 nm => ?_, ?_, ?_, ?_⟩
  · rw [EvaluatorAgent.execute, if_pos (Or.inl rfl)]
  · rw [EvaluatorAgent.execute, if_pos (Or.inr rfl)]
  · rw [EvaluatorAgent.execute]
    split_ifs
    · right; rfl
    · cases hgq : EvaluatorAgent.get_question_feedback qs2 ans2 with
      | error e => right; rfl
      | ok l => left; rfl
  · rw [hexec]
  · rw [hexec]; exact hlen
  · intro j qq hj
    rw [hexec]
    simpa using hspec j qq hj

/-- **C7, witness.**  Two questions, one answer: the evaluation succeeds
with a feedback entry for both questions. -/
theorem c7_witness :
    (EvaluatorAgent.execute [demo_q, demo_q1] [3] "Alice").status = "success"
    ∧ (EvaluatorAgent.execute [demo_q, demo_q1] [3]
        "Alice").question_feedback.length = 2 := by
  have h := c7_evaluator_boundary [demo_q, demo_q1] [3] "Alice"
    (by simp) (by simp) (by decide) (by decide)
  exact ⟨h.2.2.2.1, h.2.2.2.2.1⟩

/-- The squared-cosine score is non-negative. -/
theorem sim_score_sq_nonneg (v w : List ℕ) :
    0 ≤ VectorStore.sim_score_sq v w := by
  rw [VectorStore.sim_score_sq]
  positivity

/-- On term-frequency vectors the real cosine similarity is the square
root of the rational squared-cosine score, including the zero-norm
cases (both sides are 0 there). -/
theorem cosine_eq_sqrt (v w : List ℕ) :
    VectorStore.cosine_similarity v w =
      Real.sqrt ((VectorStore.sim_score_sq v w : ℚ) : ℝ) := by
  rw [VectorStore.cosine_similarity, VectorStore.sim_score_sq]
  push_cast
  rw [Real.sqrt_div (by positivity) _, Real.sqrt_sq (by positivity),
    Real.sqrt_mul (by positivity) _]

/-- Comparisons of the computable squared-cosine score decide comparisons
of the real cosine similarity. -/
theorem sim_score_sq_le_iff (u v w : List ℕ) :
    VectorStore.sim_score_sq u v ≤ VectorStore.sim_score_sq u w ↔
      VectorStore.cosine_similarity u v ≤ VectorStore.cosine_similarity u w := by
  rw [cosine_eq_sqrt, cosine_eq_sqrt,
    Real.sqrt_le_sqrt_iff (by exact_mod_cast sim_score_sq_nonneg u w)]
  exact_mod_cast Iff.rfl

/-- The search comparator is total. -/
theorem search_le_total (qe : List ℕ) (a b : VectorStore.StoredDoc) :
    VectorStore.search_le qe a b || VectorStore.search_le qe b a := by
  rw [VectorStore.search_le, VectorStore.search_le]
  simp only [Bool.or_eq_true, decide_eq_true_eq]
  exact le_total _ _

/-- The search comparator is transitive. -/
theorem search_le_trans (qe : List ℕ) (a b c : VectorStore.StoredDoc)
    (hab : VectorStore.search_le qe a b) (hbc : VectorStore.search_le qe b c) :
    VectorStore.search_le qe a c := by
  rw [VectorStore.search_le] at *
  simp only [decide_eq_true_eq] at *
  exact le_trans hbc hab

/-- **C9 (confirmed).**  `VectorStore.search` on an empty store returns the
empty list rather than an error; otherwise it returns the first `top_k`
entries of a ranking that is a permutation of the stored documents
(insertion order), is ordered by real cosine similarity to the query
descending, and is stable: whenever `a` precedes `b` in the store and
`a`'s similarity is at least `b`'s — in particular on ties — `a` still
precedes `b` in the ranking. -/
theorem c9_search_topk (store : List VectorStore.StoredDoc) (query : String)
    (k : ℕ) :
    (store = [] → VectorStore.search store query k = [])
    ∧ VectorStore.search store query k =
        (VectorStore.search_ranking store query).take k
    ∧ (VectorStore.search_ranking store query).Perm store
    ∧ (VectorStore.search_ranking store query).Pairwise (fun a b =>
        VectorStore.cosine_similarity (VectorStore.simple_embedding query)
            b.embedding ≤
          VectorStore.cosine_similarity (VectorStore.simple_embedding query)
            a.embedding)
    ∧ (∀ a b, [a, b].Sublist store →
        VectorStore.cosine_similarity (VectorStore.simple_embedding query)
            b.embedding ≤
          VectorStore.cosine_similarity (VectorStore.simple_embedding query)
            a.embedding →
        [a, b].Sublist (VectorStore.search_ranking store query)) := by
  have htr : ∀ a b c : VectorStore.StoredDoc,
      VectorStore.search_le (VectorStore.simple_embedding query) a b →
      VectorStore.search_le (VectorStore.simple_embedding query) b c →
      VectorStore.search_le (VectorStore.simple_embedding query) a c :=
    search_le_trans (VectorStore.simple_embedding query)
  have hto : ∀ a b : VectorStore.StoredDoc,
      VectorStore.search_le (VectorStore.simple_embedding query) a b ||
        VectorStore.search_le (VectorStore.simple_embedding query) b a :=
    search_le_total (VectorStore.simple_embedding query)
  refine ⟨?_, ?_, ?_, ?_, ?_⟩
  · intro h
    subst h
    rfl
  · rw [VectorStore.search]
    split_ifs with h
    · subst h
      simp [VectorStore.search_ranking]
    · rfl
  · exact List.mergeSort_perm store _
  · have hs := List.sorted_mergeSort htr hto store
    refine hs.imp ?_
    intro a b hab
    rw [VectorStore.search_le] at hab
    simp only [decide_eq_true_eq] at hab
    exact (sim_score_sq_le_iff _ _ _).mp hab
  · intro a b hsub hcos
    refine List.pair_sublist_mergeSort htr hto ?_ hsub
    rw [VectorStore.search_le]
    simp only [decide_eq_true_eq]
    exact (sim_score_sq_le_iff _ _ _).mpr hcos

/-- **C9, witness.**  The empty store yields `[]`, and two equally similar
documents keep their insertion order in the ranking. -/
theorem c9_witness :
    VectorStore.search [] "money" 3 = []
    ∧ [demo_doc1, demo_doc2].Sublist
        (VectorStore.search_ranking [demo_doc1, demo_doc2] "money") := by
  refine ⟨(c9_search_topk [] "money" 3).1 rfl, ?_⟩
  exact (c9_search_topk [demo_doc1, demo_doc2] "money" 2).2.2.2.2 demo_doc1
    demo_doc2 (List.Sublist.refl _) (le_refl _)
